import Mathlib

/-!
Verification of the `message.rs` binding layer of notmuch-rs.

The file shallowly embeds the Rust code of `src/message.rs`. The external
native engine (libnotmuch) is reached only through a fixed C function table;
we model the engine as an explicit state (`Engine`) carrying the message's
tag set, its freeze nesting count, a read-only flag, and a trace of the
native calls made, and we embed every Rust function as a Lean function over
that state. A Rust panic (an `unwrap` firing) is modelled as the `none`
value of an `Option`-typed result; Rust's `Result<T>` is `Except Error T`.
-/

namespace NotmuchRs

/-- A C string as handed back by the native engine: the null pointer,
bytes that are not valid UTF-8, or bytes decoding to a Lean `String`. -/
inductive NativeStr where
  | null
  | invalid
  | valid (s : String)
deriving DecidableEq, Repr

/-- Embeds `ToStr::to_str` as used on engine-returned strings followed by the
callers' `unwrap`: decoding yields the string for valid UTF-8 and fails
(`none`, a panic at the `unwrap`) for a null or undecodable native string. -/
def NativeStr.toStr : NativeStr → Option String
  | NativeStr.valid s => some s
  | _ => none

/-- Does the string contain a NUL byte anywhere? -/
def containsNul (s : String) : Bool := s.data.any (fun c => c = Char.ofNat 0)

/-- Embeds `CString::new`: it fails exactly when the input contains a NUL
byte (which would be an interior NUL of the resulting C string). -/
def cstringNew (s : String) : Option String :=
  if containsNul s then none else some s

/-- The native status codes relevant to this file (the exact taxonomy is owned
by the external engine). -/
inductive Status where
  | success
  | readOnlyDatabase
  | unbalancedFreezeThaw
deriving DecidableEq, Repr

/-- The error type of the binding layer (subset used in `message.rs`). -/
inductive Error where
  | UnspecifiedError
  | NotmuchError (st : Status)
deriving DecidableEq, Repr

/-- Embeds `notmuch_status_t::as_result`: SUCCESS becomes `Ok(())`, any other
status becomes the corresponding typed error. -/
def Status.asResult : Status → Except Error Unit
  | Status.success => Except.ok ()
  | st => Except.error (Error.NotmuchError st)

/-- One call into the native engine, for the call trace. -/
inductive EngineCall where
  | freezeCall
  | thawCall
  | addTagCall (t : String)
  | removeTagCall (t : String)
deriving DecidableEq, Repr

/-- The model of the external engine's state for one message: its tag set,
the freeze nesting count, whether the database is read-only, and the trace
of native calls made so far. -/
structure Engine where
  readOnly : Bool
  frozenCount : Nat
  tags : List String
  trace : List EngineCall
deriving DecidableEq, Repr

/-- Modelled from the spec: `notmuch_message_freeze` (the engine side of the
freeze/thaw bracket, external to this repository) opens a bracket around a
batch of tag mutations; it fails on a read-only database without changing
the freeze state, and otherwise increments the freeze nesting count. -/
def Engine.freeze (e : Engine) : Status × Engine :=
  if e.readOnly then
    (Status.readOnlyDatabase, { e with trace := e.trace ++ [EngineCall.freezeCall] })
  else
    (Status.success,
      { e with frozenCount := e.frozenCount + 1,
               trace := e.trace ++ [EngineCall.freezeCall] })

/-- Modelled from the spec: `notmuch_message_thaw` (external to this
repository) closes one freeze bracket; it fails on a read-only database or
on an unbalanced bracket (freeze count zero), else decrements the count. -/
def Engine.thaw (e : Engine) : Status × Engine :=
  if e.readOnly then
    (Status.readOnlyDatabase, { e with trace := e.trace ++ [EngineCall.thawCall] })
  else if e.frozenCount = 0 then
    (Status.unbalancedFreezeThaw, { e with trace := e.trace ++ [EngineCall.thawCall] })
  else
    (Status.success,
      { e with frozenCount := e.frozenCount - 1,
               trace := e.trace ++ [EngineCall.thawCall] })

/-- Modelled from the spec: `notmuch_message_add_tag` (external to this
repository) mutates the tag set of the message by inserting the tag; it
fails on a read-only database, leaving the tag set unchanged. -/
def Engine.addTagNative (e : Engine) (t : String) : Status × Engine :=
  if e.readOnly then
    (Status.readOnlyDatabase, { e with trace := e.trace ++ [EngineCall.addTagCall t] })
  else
    (Status.success,
      { e with tags := if t ∈ e.tags then e.tags else e.tags ++ [t],
               trace := e.trace ++ [EngineCall.addTagCall t] })

/-- Modelled from the spec: `notmuch_message_remove_tag` (external to this
repository) mutates the tag set by removing the tag; it fails on a
read-only database, leaving the tag set unchanged. -/
def Engine.removeTagNative (e : Engine) (t : String) : Status × Engine :=
  if e.readOnly then
    (Status.readOnlyDatabase, { e with trace := e.trace ++ [EngineCall.removeTagCall t] })
  else
    (Status.success,
      { e with tags := e.tags.filter (fun u => u ≠ t),
               trace := e.trace ++ [EngineCall.removeTagCall t] })

namespace Message

/-- Embeds `Message::id`: reads the native message-id string and decodes it
with `to_str().unwrap()`; `none` is the panic of that `unwrap` on a
null/undecodable native string. -/
def id (mid : NativeStr) : Option String := mid.toStr

/-- Embeds `Message::thread_id`: reads and decodes the native thread-id
string exactly like `id`. -/
def threadId (tid : NativeStr) : Option String := tid.toStr

/-- Embeds `Message::filename`: decodes the native filename string and wraps
it in a `PathBuf` (modelled as the string itself); `none` is the panic of
the `unwrap` on a null/undecodable native string. -/
def filename (f : NativeStr) : Option String := f.toStr

/-- Embeds `Message::date`: returns the engine's timestamp cast to `i64`;
this accessor involves no native string and cannot fail. -/
def date (d : Int) : Int := d

/-- The body of `Message::header` after the `CString::new(name).unwrap()`
succeeded, applied to the native string the engine's header lookup
returned: a null return is the unspecified error; otherwise the value is
decoded (`unwrap`, panicking on invalid UTF-8), the empty string becomes
`Ok(None)` and any other string `v` becomes `Ok(Some(v))`. -/
def headerBody (ret : NativeStr) : Option (Except Error (Option String)) :=
  if ret = NativeStr.null then some (Except.error Error.UnspecifiedError)
  else
    match ret.toStr with
    | none => none
    | some s => some (Except.ok (if s = "" then none else some s))

/-- Embeds `Message::header`: builds a C string from the header name
(`CString::new(name).unwrap()`, panicking on an interior NUL byte), calls
the engine's header lookup, and post-processes its return via
`headerBody`. The parameter `ret` is the native string the engine returns
for this name. -/
def header (name : String) (ret : NativeStr) : Option (Except Error (Option String)) :=
  match cstringNew name with
  | none => none
  | some _ => headerBody ret

/-- Embeds `Message::add_tag`: builds a C string from the tag (panicking on
an interior NUL byte) and forwards to the engine, mapping the returned
status through `as_result`. -/
def addTag (tag : String) (e : Engine) : Option (Except Error Unit × Engine) :=
  match cstringNew tag with
  | none => none
  | some t =>
    let (st, e1) := Engine.addTagNative e t
    some (st.asResult, e1)

/-- Embeds `Message::remove_tag`: builds a C string from the tag (panicking
on an interior NUL byte) and forwards to the engine, mapping the returned
status through `as_result`. -/
def removeTag (tag : String) (e : Engine) : Option (Except Error Unit × Engine) :=
  match cstringNew tag with
  | none => none
  | some t =>
    let (st, e1) := Engine.removeTagNative e t
    some (st.asResult, e1)

/-- Embeds `Message::freeze`: `ffi::notmuch_message_freeze(..).as_result()`. -/
def freeze (e : Engine) : Except Error Unit × Engine :=
  let (st, e1) := Engine.freeze e
  (st.asResult, e1)

/-- Embeds `Message::thaw`: `ffi::notmuch_message_thaw(..).as_result()`. -/
def thaw (e : Engine) : Except Error Unit × Engine :=
  let (st, e1) := Engine.thaw e
  (st.asResult, e1)

end Message

/-- Is `p` a prefix of `s` (character-wise)? -/
def strIsPrefixOf (p s : String) : Bool := p.data.isPrefixOf s.data

/-- Modelled from the spec: `notmuch_message_get_properties` (external to
this repository) selects, from the message's property list, either the
properties whose key is exactly the given key (`exact = true`) or those
whose key has the given key as a prefix (`exact = false`). -/
def Engine.getProperties (props : List (String × String)) (key : String)
    (exact : Bool) : List (String × String) :=
  if exact then props.filter (fun p => p.1 = key)
  else props.filter (fun p => strIsPrefixOf key p.1)

namespace MessageExt

/-- Embeds `MessageExt::properties`: builds a C string from the key
(`CString::new(key).unwrap()`, panicking on an interior NUL byte) and calls
the engine's property lookup with the exact flag. -/
def properties (props : List (String × String)) (key : String) (exact : Bool) :
    Option (List (String × String)) :=
  match cstringNew key with
  | none => none
  | some k => some (Engine.getProperties props k exact)

end MessageExt

/-- The RAII guard `FrozenMessage` (embedding: the guard carries no data the
engine model needs beyond its existence; the Rust value holds a scoped
reference to the message). -/
inductive FrozenMessage where
  | guard
deriving DecidableEq, Repr

namespace FrozenMessage

/-- Embeds `FrozenMessage::new`: freezes the message; on a freeze failure
the error propagates via `?` and no guard value is created (no
compensating thaw call is made); on success the guard wrapping the message
is returned. -/
def new (e : Engine) : Except Error FrozenMessage × Engine :=
  let (r, e1) := Message.freeze e
  match r with
  | Except.error err => (Except.error err, e1)
  | Except.ok _ => (Except.ok FrozenMessage.guard, e1)

/-- Embeds `Drop for FrozenMessage`: `let _ = self.message.thaw();` — the
destructor calls thaw exactly once and discards its result, so the function
returns the post-thaw engine state whether or not the thaw succeeded. -/
def drop (_g : FrozenMessage) (e : Engine) : Engine :=
  (Message.thaw e).2

end FrozenMessage

/-! ## Pointer-wrapping model

`Message` and its derived handles each wrap one opaque native pointer.
We model pointers as natural numbers with `0` standing for the null
pointer; each `from_ptr`-style constructor in the source stores the
pointer it is given without inspecting it. -/

/-- An opaque native pointer; `0` is the null pointer. -/
abbrev Ptr := Nat

/-- The `Message` handle: wraps one opaque `notmuch_message_t` pointer. -/
structure MessageHandle where
  ptr : Ptr
deriving DecidableEq, Repr

/-- Embeds `Message::from_ptr`: stores the given pointer (and the ownership
marker, irrelevant to the pointer field) without any null check. -/
def MessageHandle.fromPtr (p : Ptr) : MessageHandle := { ptr := p }

/-- The `Messages` iterator handle produced by `replies`. -/
structure MessagesHandle where
  ptr : Ptr
deriving DecidableEq, Repr

/-- Embeds `Message::replies`: wraps whatever pointer
`notmuch_message_get_replies` returned, with no null check. -/
def MessageHandle.replies (repliesPtr : Ptr) : MessagesHandle := { ptr := repliesPtr }

/-- The `Tags` iterator handle. -/
structure TagsHandle where
  ptr : Ptr
deriving DecidableEq, Repr

/-- Embeds `MessageExt::tags`: wraps whatever pointer
`notmuch_message_get_tags` returned, with no null check. -/
def MessageHandle.tagsFromPtr (tagsPtr : Ptr) : TagsHandle := { ptr := tagsPtr }

/-- The `Filenames` iterator handle. -/
structure FilenamesHandle where
  ptr : Ptr
deriving DecidableEq, Repr

/-- Embeds `MessageExt::filenames`: wraps whatever pointer
`notmuch_message_get_filenames` returned, with no null check. -/
def MessageHandle.filenamesFromPtr (fnPtr : Ptr) : FilenamesHandle := { ptr := fnPtr }

/-- The `MessageProperties` iterator handle. -/
structure PropertiesHandle where
  ptr : Ptr
deriving DecidableEq, Repr

/-- Embeds the handle construction in `MessageExt::properties`: wraps
whatever pointer `notmuch_message_get_properties` returned, no null check. -/
def MessageHandle.propertiesFromPtr (prPtr : Ptr) : PropertiesHandle := { ptr := prPtr }

/-! ## RefCell borrow-flag model

`Message` stores its ownership marker in a `RefCell`. Only `replies`
touches that cell: it takes `borrow_mut`, shares the marker, and the
temporary borrow is released at the end of the expression, before
`replies` returns. We model the cell's dynamic borrow flag and the effect
of each public `Message` operation on it. -/

/-- The dynamic borrow state of the marker `RefCell`. -/
inductive BorrowFlag where
  | free
  | mutBorrowed
deriving DecidableEq, Repr

/-- One public operation on a `Message` in a single-threaded sequence. -/
inductive MsgOp where
  | opId
  | opThreadId
  | opFilename
  | opDate
  | opHeader (name : String)
  | opTags
  | opFilenames
  | opReplies
  | opProperties (key : String) (exact : Bool)
  | opAddTag (t : String)
  | opRemoveTag (t : String)
  | opFreeze
  | opThaw
deriving DecidableEq, Repr

/-- Embeds the effect of each `Message` method on the marker cell's borrow
flag. Only `replies` borrows the `RefCell` (mutably); it would panic
(`none`) if the cell were already mutably borrowed, and otherwise releases
the borrow before returning (flag back to `free`). Every other method
never touches the cell. -/
def MsgOp.step (op : MsgOp) (b : BorrowFlag) : Option BorrowFlag :=
  match op with
  | MsgOp.opReplies =>
    match b with
    | BorrowFlag.free => some BorrowFlag.free
    | BorrowFlag.mutBorrowed => none
  | _ => some b

/-- Runs a sequence of `Message` operations, threading the borrow flag;
`none` means some operation hit the `RefCell` double-borrow panic. -/
def runOps (ops : List MsgOp) (b : BorrowFlag) : Option BorrowFlag :=
  match ops with
  | [] => some b
  | op :: rest =>
    match op.step b with
    | none => none
    | some b1 => runOps rest b1

/-! ## Concrete engine states used by witnesses -/

/-- A fresh writable engine state. -/
def engineRW : Engine := { readOnly := false, frozenCount := 0, tags := [], trace := [] }

/-- A fresh read-only engine state (freeze and tag mutation fail on it). -/
def engineRO : Engine := { readOnly := true, frozenCount := 0, tags := [], trace := [] }

/-! ## Theorems -/

/-- C1: for every call `header(name)`, a null native lookup result yields the
unspecified-error `Err`; otherwise a decoded empty header value yields
`Ok(None)` and a non-empty value `v` yields `Ok(Some(v))`; the `Ok` cases
are distinguished from the failure case. -/
theorem header_distinguishes_null_empty_nonempty (name v : String)
    (h : containsNul name = false) :
    Message.header name NativeStr.null = some (Except.error Error.UnspecifiedError) ∧
    Message.header name (NativeStr.valid "") = some (Except.ok none) ∧
    (v ≠ "" → Message.header name (NativeStr.valid v) = some (Except.ok (some v))) := by
  unfold Message.header cstringNew Message.headerBody NativeStr.toStr
  rw [h]
  refine ⟨rfl, rfl, fun hv => ?_⟩
  simp [hv]

theorem header_distinguishes_witness :
    containsNul "subject" = false ∧
    Message.header "subject" (NativeStr.valid "hi") = some (Except.ok (some "hi")) :=
  ⟨by decide,
   (header_distinguishes_null_empty_nonempty "subject" "hi" (by decide)).2.2 (by decide)⟩

/-- C4: for every engine state and tag string `t`, a successful `add_tag(t)`
followed by a successful `remove_tag(t)` leaves the message's tag set not
containing `t`, regardless of whether `t` was present initially. -/
theorem addTag_then_removeTag_tag_absent (e e1 e2 : Engine) (t : String)
    (r1 r2 : Except Error Unit)
    (h1 : Message.addTag t e = some (r1, e1)) (hr1 : r1 = Except.ok ())
    (h2 : Message.removeTag t e1 = some (r2, e2)) (hr2 : r2 = Except.ok ()) :
    t ∉ e2.tags := by
  subst hr2
  unfold Message.removeTag at h2
  by_cases hn : containsNul t
  · rw [show cstringNew t = none by simp [cstringNew, hn]] at h2
    exact absurd h2 (by simp)
  · rw [show cstringNew t = some t by simp [cstringNew, hn]] at h2
    unfold Engine.removeTagNative at h2
    by_cases hro : e1.readOnly
    · simp [hro, Status.asResult] at h2
    · simp [hro, Status.asResult] at h2
      subst h2
      simp [List.mem_filter]

theorem addTag_then_removeTag_witness :
    "inbox" ∉ (Engine.mk false 0 []
      [EngineCall.addTagCall "inbox", EngineCall.removeTagCall "inbox"]).tags :=
  addTag_then_removeTag_tag_absent engineRW
    (Engine.mk false 0 ["inbox"] [EngineCall.addTagCall "inbox"])
    (Engine.mk false 0 []
      [EngineCall.addTagCall "inbox", EngineCall.removeTagCall "inbox"])
    "inbox" (Except.ok ()) (Except.ok ()) rfl rfl rfl rfl

/-- C5: for every message and NUL-free key, `properties(key, exact := true)`
yields exactly the properties whose key equals `key`, and
`properties(key, exact := false)` yields exactly those whose key has `key`
as a prefix; in particular on properties `("k","1"), ("kk","2")` with key
`"k"`, exact mode returns only `("k","1")` and prefix mode returns both. -/
theorem properties_exact_vs_prefixMode (key : String) (props : List (String × String))
    (h : containsNul key = false) :
    (∃ l, MessageExt.properties props key true = some l ∧
       ∀ p : String × String, p ∈ l ↔ p ∈ props ∧ p.1 = key) ∧
    (∃ l, MessageExt.properties props key false = some l ∧
       ∀ p : String × String, p ∈ l ↔ p ∈ props ∧ strIsPrefixOf key p.1 = true) ∧
    MessageExt.properties [("k", "1"), ("kk", "2")] "k" true = some [("k", "1")] ∧
    MessageExt.properties [("k", "1"), ("kk", "2")] "k" false
      = some [("k", "1"), ("kk", "2")] := by
  refine ⟨?_, ?_, rfl, rfl⟩
  · refine ⟨Engine.getProperties props key true, ?_, ?_⟩
    · unfold MessageExt.properties cstringNew
      rw [h]
      rfl
    · intro p
      unfold Engine.getProperties
      simp [List.mem_filter]
  · refine ⟨Engine.getProperties props key false, ?_, ?_⟩
    · unfold MessageExt.properties cstringNew
      rw [h]
      rfl
    · intro p
      unfold Engine.getProperties
      simp [List.mem_filter]

theorem properties_exact_vs_prefixMode_witness :
    containsNul "k" = false ∧
    MessageExt.properties [("k", "1"), ("kk", "2")] "k" true = some [("k", "1")] :=
  ⟨by decide, (properties_exact_vs_prefixMode "k" [("k", "1"), ("kk", "2")] (by decide)).2.2.1⟩

/-- C6: the accessors `id()`, `thread_id()`, `filename()` and `date()` are
read-only projections whose only failure mode is an invalid/unreadable
(null or undecodable) native string, in which case the decoding failure
propagates to the caller; on a decodable native string each returns its
decoded value, and `date()` is total. -/
theorem accessors_fail_only_on_undecodable (s t f : NativeStr) (d : Int) :
    (Message.id s = none ↔ s = NativeStr.null ∨ s = NativeStr.invalid) ∧
    (Message.threadId t = none ↔ t = NativeStr.null ∨ t = NativeStr.invalid) ∧
    (Message.filename f = none ↔ f = NativeStr.null ∨ f = NativeStr.invalid) ∧
    (∀ v, Message.id (NativeStr.valid v) = some v) ∧
    (∀ v, Message.threadId (NativeStr.valid v) = some v) ∧
    (∀ v, Message.filename (NativeStr.valid v) = some v) ∧
    Message.date d = d := by
  refine ⟨?_, ?_, ?_, fun v => rfl, fun v => rfl, fun v => rfl, rfl⟩
  · cases s <;> simp [Message.id, NativeStr.toStr]
  · cases t <;> simp [Message.threadId, NativeStr.toStr]
  · cases f <;> simp [Message.filename, NativeStr.toStr]

/-- C10: only `replies()` borrows the message's marker `RefCell`, mutably,
and it releases the borrow before returning; hence in every single-threaded
sequence of `Message` operations started on a freshly constructed message
(borrow flag free), the `RefCell` double-borrow panic is unreachable and
the flag is free again after every operation. -/
theorem replies_no_double_borrow (ops : List MsgOp) :
    runOps ops BorrowFlag.free = some BorrowFlag.free := by
  induction ops with
  | nil => rfl
  | cons op rest ih =>
    cases op <;> simpa [runOps, MsgOp.step] using ih

/-- C2: for every `FrozenMessage` whose construction succeeded, destruction
attempts the thaw operation exactly once (the drop appends exactly one thaw
call to the trace, and construction appended none), even though the caller
never calls `thaw` explicitly; and the drop returns the post-thaw engine
state with the thaw result discarded, so a thaw failure is swallowed. -/
theorem frozenMessage_drop_thaws_once (e : Engine) (g : FrozenMessage) (e1 : Engine)
    (h : FrozenMessage.new e = (Except.ok g, e1)) :
    (FrozenMessage.drop g e1).trace.count EngineCall.thawCall
      = e.trace.count EngineCall.thawCall + 1 ∧
    FrozenMessage.drop g e1 = (Message.thaw e1).2 := by
  have h1 : e1.trace = e.trace ++ [EngineCall.freezeCall] := by
    unfold FrozenMessage.new Message.freeze Engine.freeze at h
    by_cases hr : e.readOnly
    · simp [hr, Status.asResult] at h
    · simp [hr, Status.asResult] at h
      rw [← h]
  have h2 : (FrozenMessage.drop g e1).trace = e1.trace ++ [EngineCall.thawCall] := by
    unfold FrozenMessage.drop Message.thaw Engine.thaw
    by_cases hr : e1.readOnly
    · simp [hr]
    · by_cases hf : e1.frozenCount = 0 <;> simp [hr, hf]
  refine ⟨?_, rfl⟩
  rw [h2, h1]
  simp [List.count_append]

theorem frozenMessage_drop_thaws_once_witness :
    (FrozenMessage.drop FrozenMessage.guard
        (Engine.mk false 1 [] [EngineCall.freezeCall])).trace.count EngineCall.thawCall
      = engineRW.trace.count EngineCall.thawCall + 1 ∧
    FrozenMessage.drop FrozenMessage.guard (Engine.mk false 1 [] [EngineCall.freezeCall])
      = (Message.thaw (Engine.mk false 1 [] [EngineCall.freezeCall])).2 :=
  frozenMessage_drop_thaws_once engineRW FrozenMessage.guard
    (Engine.mk false 1 [] [EngineCall.freezeCall]) rfl

/-- C3: for every call `FrozenMessage::new` in which the underlying freeze
call fails, the result is that failure's `Err`, no guard value is created,
and no compensating thaw call is made; the message's freeze state (and tag
set) is unchanged by the failed construction. -/
theorem frozenMessage_new_freeze_failure (e e1 : Engine) (err : Error)
    (r : Except Error FrozenMessage)
    (h : FrozenMessage.new e = (r, e1)) (hf : (Message.freeze e).1 = Except.error err) :
    r = Except.error err ∧
    e1.frozenCount = e.frozenCount ∧
    e1.tags = e.tags ∧
    e1.trace.count EngineCall.thawCall = e.trace.count EngineCall.thawCall := by
  unfold Message.freeze Engine.freeze at hf
  by_cases hr : e.readOnly
  · simp [hr, Status.asResult] at hf
    unfold FrozenMessage.new Message.freeze Engine.freeze at h
    simp [hr, Status.asResult] at h
    have he1 := h.2
    subst he1
    refine ⟨?_, rfl, rfl, by simp [List.count_append]⟩
    rw [← h.1, ← hf]
  · simp [hr, Status.asResult] at hf

theorem frozenMessage_new_freeze_failure_witness :
    (Except.error (Error.NotmuchError Status.readOnlyDatabase)
        : Except Error FrozenMessage)
      = Except.error (Error.NotmuchError Status.readOnlyDatabase) ∧
    (Engine.mk true 0 [] [EngineCall.freezeCall]).frozenCount = engineRO.frozenCount ∧
    (Engine.mk true 0 [] [EngineCall.freezeCall]).tags = engineRO.tags ∧
    (Engine.mk true 0 [] [EngineCall.freezeCall]).trace.count EngineCall.thawCall
      = engineRO.trace.count EngineCall.thawCall :=
  frozenMessage_new_freeze_failure engineRO
    (Engine.mk true 0 [] [EngineCall.freezeCall])
    (Error.NotmuchError Status.readOnlyDatabase)
    (Except.error (Error.NotmuchError Status.readOnlyDatabase)) rfl rfl

/-- C8 (counterexample): it is not the case that every `Message` constructed
via `from_ptr` wraps a non-null pointer: `from_ptr` stores the pointer it
is given without a null check, so constructing from the null pointer yields
a handle wrapping null. -/
theorem fromPtr_null_pointer_counterexample :
    ¬ ∀ p : Ptr, (MessageHandle.fromPtr p).ptr ≠ 0 := by
  intro h
  exact h 0 rfl

/-- C8 (amended): every resource handle wraps exactly one opaque native
pointer, stored verbatim from its construction input with no null check on
any construction path (`from_ptr`, `replies`, `tags`, `filenames`,
`properties`); the wrapped pointer is non-null exactly when the supplied
or engine-returned pointer is. -/
theorem handles_wrap_given_pointer (p q r s u : Ptr) :
    (MessageHandle.fromPtr p).ptr = p ∧
    (MessageHandle.replies q).ptr = q ∧
    (MessageHandle.tagsFromPtr r).ptr = r ∧
    (MessageHandle.filenamesFromPtr s).ptr = s ∧
    (MessageHandle.propertiesFromPtr u).ptr = u :=
  ⟨rfl, rfl, rfl, rfl, rfl⟩

/-- C9: for every call to `header`, `add_tag`, `remove_tag` or `properties`
whose string argument contains a NUL byte, the operation panics at the
`CString::new(..).unwrap()` instead of returning an error result; for a
NUL-free argument that panic branch is unreachable and the operation
proceeds to the engine call. -/
theorem nul_byte_panics (s : String) (ret : NativeStr) (e : Engine)
    (props : List (String × String)) (exact : Bool) :
    (containsNul s = true →
       Message.header s ret = none ∧
       Message.addTag s e = none ∧
       Message.removeTag s e = none ∧
       MessageExt.properties props s exact = none) ∧
    (containsNul s = false →
       Message.header s ret = Message.headerBody ret ∧
       Message.addTag s e
         = some ((Engine.addTagNative e s).1.asResult, (Engine.addTagNative e s).2) ∧
       Message.removeTag s e
         = some ((Engine.removeTagNative e s).1.asResult, (Engine.removeTagNative e s).2) ∧
       MessageExt.properties props s exact = some (Engine.getProperties props s exact)) := by
  constructor
  · intro hn
    refine ⟨?_, ?_, ?_, ?_⟩ <;>
      simp [Message.header, Message.addTag, Message.removeTag, MessageExt.properties,
            cstringNew, hn]
  · intro hn
    have hc : cstringNew s = some s := by simp [cstringNew, hn]
    refine ⟨?_, ?_, ?_, ?_⟩
    · unfold Message.header
      rw [hc]
    · rcases hA : Engine.addTagNative e s with ⟨st, e2⟩
      unfold Message.addTag
      rw [hc]
      simp [hA]
    · rcases hA : Engine.removeTagNative e s with ⟨st, e2⟩
      unfold Message.removeTag
      rw [hc]
      simp [hA]
    · unfold MessageExt.properties
      rw [hc]

theorem nul_byte_panics_witness :
    containsNul (String.mk [Char.ofNat 97, Char.ofNat 0, Char.ofNat 98]) = true ∧
    Message.header (String.mk [Char.ofNat 97, Char.ofNat 0, Char.ofNat 98])
      NativeStr.null = none :=
  ⟨by decide,
   ((nul_byte_panics (String.mk [Char.ofNat 97, Char.ofNat 0, Char.ofNat 98])
      NativeStr.null engineRW [] true).1 (by decide)).1⟩

end NotmuchRs
